import Mathlib

/-!
Shallow embedding of `ksbuilder.go` (package main of zanloy/ksbuilder).

The program aggregates X.509 certificates and at most one RSA private key
parsed from PEM files into a `pkcs12File` value, then serializes it either
as a PKCS#12 keystore (when a private key is present) or as a trust store.

External collaborators (PEM/DER decoding via `x509.Parse*`, the pkcs12
encode primitives, and the filesystem) are modelled abstractly: parsers
become function parameters returning `Option`, and `writeFile` returns a
description of the call it hands to the encode primitive (`pkcs12.Encode`
or `pkcs12.EncodeTrustStore`) rather than opaque bytes.  `os.WriteFile`
runs only after a successful encode, so an `Except.error` result means no
output file is written.
-/

namespace Ksbuilder

/-- The fields of `x509.Certificate` the program reads: `Subject.String()`,
`Issuer.String()` and `IsCA`. -/
structure Cert where
  subject : String
  issuer  : String
  isCA    : Bool
deriving Repr, DecidableEq

/-- An `rsa.PrivateKey` is opaque to the program; only its identity matters. -/
structure PrivateKey where
  keyId : Nat
deriving Repr, DecidableEq

/-- The aggregate `pkcs12File` struct (ksbuilder.go lines 19-24). -/
structure pkcs12File where
  cacerts           : List Cert := []
  intermediatecerts : List Cert := []
  privkey           : Option PrivateKey := none
  entitycert        : Option Cert := none
deriving Repr, DecidableEq

/-- Error message returned for a duplicate end-entity certificate. -/
def dupEntityMsg : String :=
  "cannot have two end-entity certs in keystore. The only one should be for the keystore's private key"

/-- Error message returned for a duplicate private key. -/
def dupKeyMsg : String := "cannot have two private keys in keystore"

/-- Error message returned when a private key lacks an end-entity certificate. -/
def missingEntityMsg : String :=
  "failed to generate keystore because privkey was set but found no matching end-entity certificate"

/-- `(*pkcs12File).addCertificate` (ksbuilder.go lines 26-46).  The Go method
mutates the receiver and returns an `error`; here it returns the updated
aggregate paired with the optional error message (on error the receiver was
not mutated, so the returned aggregate equals the input). -/
def pkcs12File.addCertificate (p12 : pkcs12File) (cert : Option Cert) :
    pkcs12File × Option String :=
  match cert with
  | some c =>
    if c.isCA then
      if c.issuer == c.subject then
        ({ p12 with cacerts := p12.cacerts ++ [c] }, none)
      else
        ({ p12 with intermediatecerts := p12.intermediatecerts ++ [c] }, none)
    else
      match p12.entitycert with
      | some _ => (p12, some dupEntityMsg)
      | none   => ({ p12 with entitycert := some c }, none)
  | none => (p12, none)

/-- `(*pkcs12File).addKey` (ksbuilder.go lines 48-55).  Note: the source
checks `p12.privkey != nil` and returns an error, but the success path
falls through to `return nil` WITHOUT ever assigning `p12.privkey = key`;
the embedding reproduces that faithfully (the aggregate is returned
unchanged in every case). -/
def pkcs12File.addKey (p12 : pkcs12File) (key : Option PrivateKey) :
    pkcs12File × Option String :=
  match key with
  | some _ =>
    match p12.privkey with
    | some _ => (p12, some dupKeyMsg)
    | none   => (p12, none)
  | none => (p12, none)

/-- The call `writeFile` hands to the external pkcs12 encode primitive:
`pkcs12.Encode(rand, privkey, entitycert, allcerts, storepass)` in keystore
mode, `pkcs12.EncodeTrustStore(rand, allcerts, storepass)` in trust-store
mode. -/
inductive EncodeCall where
  | keystore (key : PrivateKey) (entitycert : Cert) (chain : List Cert) (password : String)
  | trustStore (chain : List Cert) (password : String)
deriving Repr, DecidableEq

/-- The certificate-chain argument of an encode call. -/
def EncodeCall.chain : EncodeCall → List Cert
  | .keystore _ _ chain _ => chain
  | .trustStore chain _   => chain

/-- `(*pkcs12File).writeFile` (ksbuilder.go lines 57-79), up to the external
encode primitive: `allcerts := append(p12.cacerts, p12.intermediatecerts...)`;
if `privkey` is set, require `entitycert` and call `pkcs12.Encode`, else call
`pkcs12.EncodeTrustStore`.  An `.error` result is returned before any encode
or `os.WriteFile` call, so nothing is written in that case. -/
def pkcs12File.writeFile (p12 : pkcs12File) (storepass : String) :
    Except String EncodeCall :=
  let allcerts := p12.cacerts ++ p12.intermediatecerts
  match p12.privkey with
  | some key =>
    match p12.entitycert with
    | none    => .error missingEntityMsg
    | some ec => .ok (.keystore key ec allcerts storepass)
  | none => .ok (.trustStore allcerts storepass)

/-- One classification call performed by `main`'s per-file loop: either
`p12.addCertificate(cert)` or `p12.addKey(privkey)` (possibly with a nil
argument, which Go permits). -/
inductive ClassifyOp where
  | addCert (cert : Option Cert)
  | addKeyOp (key : Option PrivateKey)

/-- Apply one classification call to the aggregate, keeping the (possibly
unchanged) aggregate; the error component is what `check` would inspect. -/
def applyOp (p12 : pkcs12File) (op : ClassifyOp) : pkcs12File × Option String :=
  match op with
  | .addCert c  => p12.addCertificate c
  | .addKeyOp k => p12.addKey k

/-- Replay a sequence of classification calls starting from the empty
aggregate `pkcs12File{}` built in `main` (ksbuilder.go line 116). -/
def runOps (ops : List ClassifyOp) : pkcs12File :=
  ops.foldl (fun p op => (applyOp p op).1) {}

/-! ## Per-file PEM processing (main's loop, ksbuilder.go lines 149-191) -/

/-- Raw DER bytes inside a PEM block. -/
abbrev Bytes := List Nat

/-- A decoded PEM block, discriminated on `block.Type` as the source's
switch does: `"PRIVATE KEY"`, `"RSA PRIVATE KEY"`, `"CERTIFICATE"`, and
anything else (silently skipped by the switch). -/
inductive PemBlock where
  | privateKey (bytes : Bytes)
  | rsaPrivateKey (bytes : Bytes)
  | certificate (bytes : Bytes)
  | other (blockType : String) (bytes : Bytes)

/-- The external `crypto/x509` parsers, abstracted.  `parsePKCS8PrivateKey`
returns `none` when `x509.ParsePKCS8PrivateKey` fails or the result is not
an `*rsa.PrivateKey` (the source's type assertion); `parsePKCS1PrivateKey`
returns `none` when `x509.ParsePKCS1PrivateKey` errs; `parseCertificates`
returns `none` when `x509.ParseCertificates` errs. -/
structure Parsers where
  parsePKCS8PrivateKey : Bytes → Option PrivateKey
  parsePKCS1PrivateKey : Bytes → Option PrivateKey
  parseCertificates    : Bytes → Option (List Cert)

/-- The inner `for` loop over PEM blocks of one file (ksbuilder.go lines
157-178), accumulating `certsBytes` and classifying keys.  `check(e)`
panics on a non-nil error, which ends the run: modelled as `.error`.

In the `"RSA PRIVATE KEY"` case the source reads

  if privkey, err := x509.ParsePKCS1PrivateKey(block.Bytes); err == nil {
      check(p12.addKey(privkey))
  }
  check(err)

and the `err` in the trailing `check(err)` is NOT the parse error: the `if`
initializer's `privkey, err` are scoped to the `if` statement, so `err`
there resolves to the enclosing `bytes, err := os.ReadFile(path)` variable,
which is necessarily nil at this point (a non-nil read error already
panicked at lines 151-153).  A failed PKCS#1 parse is therefore silently
skipped and the loop continues; the embedding reproduces that. -/
def processBlocks (P : Parsers) (path : String) :
    pkcs12File → List PemBlock → Bytes → Except String (pkcs12File × Bytes)
  | p12, [], certsBytes => .ok (p12, certsBytes)
  | p12, b :: rest, certsBytes =>
    match b with
    | .privateKey bytes =>
      match P.parsePKCS8PrivateKey bytes with
      | some privkey =>
        match p12.addKey (some privkey) with
        | (p12h, none)     => processBlocks P path p12h rest certsBytes
        | (_,    some msg) => .error msg
      | none => .error ("failed to parse private key from " ++ path)
    | .rsaPrivateKey bytes =>
      match P.parsePKCS1PrivateKey bytes with
      | some privkey =>
        match p12.addKey (some privkey) with
        | (p12h, none)     => processBlocks P path p12h rest certsBytes
        | (_,    some msg) => .error msg
      | none => processBlocks P path p12 rest certsBytes
    | .certificate bytes => processBlocks P path p12 rest (certsBytes ++ bytes)
    | .other _ _ => processBlocks P path p12 rest certsBytes

/-- The loop over parsed certificates (ksbuilder.go lines 185-190): each is
classified with `addCertificate`; a non-nil error is wrapped and checked. -/
def addCertificates (path : String) :
    pkcs12File → List Cert → Except String pkcs12File
  | p12, [] => .ok p12
  | p12, c :: rest =>
    match p12.addCertificate (some c) with
    | (p12h, none)     => addCertificates path p12h rest
    | (_,    some msg) =>
      .error ("failed to parse a certificate in " ++ path ++ ": " ++ msg)

/-- Processing of one candidate file, given its decoded PEM blocks
(ksbuilder.go lines 149-191): run the block loop, then parse the
concatenated `certsBytes` with `x509.ParseCertificates` and classify each
resulting certificate. -/
def processFile (P : Parsers) (p12 : pkcs12File) (path : String)
    (blocks : List PemBlock) : Except String pkcs12File := do
  let (p12h, certsBytes) ← processBlocks P path p12 blocks []
  match P.parseCertificates certsBytes with
  | none       => .error ("failed to parse certificate in " ++ path)
  | some certs => addCertificates path p12h certs

/-! ## Directory traversal (main's walk loop, ksbuilder.go lines 118-147) -/

mutual

/-- A directory tree as `filepath.Walk` sees it. -/
inductive FSEntry where
  | file (entryName : String)
  | dir (entryName : String) (children : FSList)

/-- An ordered sequence of sibling entries. -/
inductive FSList where
  | nil
  | cons (e : FSEntry) (rest : FSList)

end

/-- The name of an entry inside its parent directory. -/
def FSEntry.name : FSEntry → String
  | .file n  => n
  | .dir n _ => n

/-- `filepath.Ext`: the suffix of the final path element beginning at its
final dot, or the empty string when there is no dot. -/
def filepathExt (path : String) : String :=
  let base := path.data.reverse.takeWhile (fun c => c != '/')
  if (base.dropWhile (fun c => c != '.')).isEmpty then ""
  else String.mk ('.' :: (base.takeWhile (fun c => c != '.')).reverse)

/-- What a `filepath.WalkFunc` may tell the walker about a directory:
keep descending, or skip it (`filepath.SkipDir`). -/
inductive WalkSignal where
  | descend
  | skipDir

/-- The walk callback of ksbuilder.go lines 123-144, acting on the
`certfiles` accumulator.  For a directory the source logs and, when
`recurse` is set and `path != rootDir`, appends `path` to the `certdirs`
slice (whose `range` loop never observes elements appended after it
started), but in every case it returns nil — never `filepath.SkipDir` — so
the walker descends regardless of `recurse`.  For a file it appends the
path to `certfiles` iff the extension is `.crt`, `.key` or `.pem`. -/
def walkFn (rootDir : String) (recurse : Bool) (certfiles : List String)
    (path : String) (isDir : Bool) : List String × WalkSignal :=
  if isDir then
    (certfiles, .descend)
  else if filepathExt path != ".crt" && filepathExt path != ".key" &&
      filepathExt path != ".pem" then
    (certfiles, .descend)
  else
    (certfiles ++ [path], .descend)

/-- `filepath.Walk`'s traversal of a sequence of sibling entries under
`parent`: visit each entry in order (calling the callback on it), and for a
directory whose callback did not return `filepath.SkipDir`, recursively
visit its children before moving to the next sibling. -/
def walkChildren (wf : List String → String → Bool → List String × WalkSignal)
    (parent : String) (es : FSList) (acc : List String) : List String :=
  match es with
  | .nil => acc
  | .cons (.file n) rest =>
    walkChildren wf parent rest (wf acc (parent ++ "/" ++ n) false).1
  | .cons (.dir n children) rest =>
    match wf acc (parent ++ "/" ++ n) true with
    | (acch, .skipDir) => walkChildren wf parent rest acch
    | (acch, .descend) =>
      walkChildren wf parent rest
        (walkChildren wf (parent ++ "/" ++ n) children acch)

/-- `filepath.Walk(dir, walkFn)` as invoked by main (ksbuilder.go line 123)
on a tree rooted at `dir`: the root itself is visited first (with
`path == dir`), then — for a directory not skipped — its children, in
order.  Returns the `certfiles` accumulated. -/
def walkDir (recurse : Bool) (dir : String) (tree : FSEntry) : List String :=
  match tree with
  | .file _ => (walkFn dir recurse [] dir false).1
  | .dir _ children =>
    match walkFn dir recurse [] dir true with
    | (acch, .skipDir) => acch
    | (acch, .descend) => walkChildren (walkFn dir recurse) dir children acch

/-! ## Helper lemmas -/

/-- Neither classification call ever changes the `privkey` field:
`addCertificate` only touches the certificate fields, and `addKey` never
assigns the key it is given. -/
theorem applyOp_privkey (p12 : pkcs12File) (op : ClassifyOp) :
    ((applyOp p12 op).1).privkey = p12.privkey := by
  cases op with
  | addCert c =>
    cases c with
    | none => rfl
    | some cert =>
      simp only [applyOp, pkcs12File.addCertificate]
      split
      · split <;> rfl
      · split <;> rfl
  | addKeyOp k =>
    cases k with
    | none => rfl
    | some key =>
      simp only [applyOp, pkcs12File.addKey]
      split <;> rfl

/-- Replaying classification calls preserves the `privkey` field. -/
theorem foldl_applyOp_privkey (ops : List ClassifyOp) (p12 : pkcs12File) :
    (ops.foldl (fun p op => (applyOp p op).1) p12).privkey = p12.privkey := by
  induction ops generalizing p12 with
  | nil => rfl
  | cons op rest ih =>
    rw [List.foldl_cons, ih ((applyOp p12 op).1), applyOp_privkey]

/-- When the private-key slot is empty, `writeFile` reaches the
`pkcs12.EncodeTrustStore` call with the concatenated chain. -/
theorem writeFile_of_privkey_none (p12 : pkcs12File) (storepass : String)
    (h : p12.privkey = none) :
    p12.writeFile storepass =
      .ok (.trustStore (p12.cacerts ++ p12.intermediatecerts) storepass) := by
  simp [pkcs12File.writeFile, h]

/-! ## Claim theorems -/

/-- C1 (code bug): the spec says classifying a non-null private key into an
empty private-key slot occupies the slot with that key; `addKey` in the
source never assigns `p12.privkey`, so the slot stays empty.  The first
conjunct shows `addKey` returns the aggregate unchanged on every input; the
second evaluates the failing input: an empty aggregate and a non-null key,
after which the call reports success yet the slot still holds nothing. -/
theorem addKey_never_occupies_slot :
    (∀ (p12 : pkcs12File) (key : Option PrivateKey), (p12.addKey key).1 = p12) ∧
    pkcs12File.addKey {} (some ⟨0⟩) = ({}, none) := by
  constructor
  · intro p12 key
    cases key with
    | none => rfl
    | some k => cases h : p12.privkey <;> simp [pkcs12File.addKey, h]
  · decide

/-- C2: starting from the empty aggregate built in `main`, any sequence of
`addCertificate`/`addKey` calls leaves `privkey` nil, so `writeFile` always
reaches the `pkcs12.EncodeTrustStore` branch and never the keystore
branch. -/
theorem runOps_privkey_none_trustStore (ops : List ClassifyOp) (storepass : String) :
    (runOps ops).privkey = none ∧
    (runOps ops).writeFile storepass =
      .ok (.trustStore ((runOps ops).cacerts ++ (runOps ops).intermediatecerts)
        storepass) := by
  have h : (runOps ops).privkey = none := foldl_applyOp_privkey ops {}
  exact ⟨h, writeFile_of_privkey_none _ _ h⟩

/-- C3 (code bug): the spec says classifying a second private key after one
has been recorded fails with the duplicate-key error; because `addKey`
never records the first key (the C1 slip), the duplicate guard
`p12.privkey != nil` can never fire on a run that starts from the empty
aggregate: classifying two keys in sequence reports success both times and
leaves the aggregate empty. -/
theorem second_addKey_not_rejected :
    (pkcs12File.addKey {} (some ⟨0⟩)).2 = none ∧
    ((pkcs12File.addKey {} (some ⟨0⟩)).1.addKey (some ⟨1⟩)).2 = none ∧
    runOps [.addKeyOp (some ⟨0⟩), .addKeyOp (some ⟨1⟩)] = {} := by decide

/-- C4: `addCertificate` on a non-null certificate appends a self-signed
authority (Issuer string equal to Subject string) to `cacerts`, appends a
non-self-signed authority to `intermediatecerts`, and places a
non-authority certificate into an empty `entitycert` slot; in each case
every other field of the aggregate is unchanged and no error is
returned. -/
theorem addCertificate_classifies (p12 : pkcs12File) (c : Cert) :
    (c.isCA = true → c.issuer = c.subject →
      p12.addCertificate (some c) = ({ p12 with cacerts := p12.cacerts ++ [c] }, none)) ∧
    (c.isCA = true → ¬ c.issuer = c.subject →
      p12.addCertificate (some c) =
        ({ p12 with intermediatecerts := p12.intermediatecerts ++ [c] }, none)) ∧
    (c.isCA = false → p12.entitycert = none →
      p12.addCertificate (some c) = ({ p12 with entitycert := some c }, none)) := by
  refine ⟨?_, ?_, ?_⟩ <;> intro h1 h2 <;> simp [pkcs12File.addCertificate, h1, h2]

/-- Witness for C4 at three concrete certificates. -/
theorem addCertificate_classifies_witness :
    ((⟨"ca", "ca", true⟩ : Cert).isCA = true ∧ (⟨"ca", "ca", true⟩ : Cert).issuer = "ca" ∧
      pkcs12File.addCertificate {} (some ⟨"ca", "ca", true⟩) =
        ({ cacerts := [⟨"ca", "ca", true⟩] }, none)) ∧
    ((⟨"sub", "root", true⟩ : Cert).isCA = true ∧ ¬ ("root" : String) = "sub" ∧
      pkcs12File.addCertificate {} (some ⟨"sub", "root", true⟩) =
        ({ intermediatecerts := [⟨"sub", "root", true⟩] }, none)) ∧
    ((⟨"leaf", "root", false⟩ : Cert).isCA = false ∧
      pkcs12File.addCertificate {} (some ⟨"leaf", "root", false⟩) =
        ({ entitycert := some ⟨"leaf", "root", false⟩ }, none)) :=
  ⟨⟨rfl, rfl, (addCertificate_classifies {} ⟨"ca", "ca", true⟩).1 rfl rfl⟩,
   ⟨rfl, by decide,
    (addCertificate_classifies {} ⟨"sub", "root", true⟩).2.1 rfl (by decide)⟩,
   ⟨rfl, (addCertificate_classifies {} ⟨"leaf", "root", false⟩).2.2 rfl rfl⟩⟩

/-- C5: with the end-entity slot already occupied, classifying another
non-authority certificate returns the duplicate-end-entity error and the
aggregate is exactly as before the call. -/
theorem addCertificate_duplicate_end_entity (p12 : pkcs12File) (c e : Cert)
    (he : p12.entitycert = some e) (hc : c.isCA = false) :
    p12.addCertificate (some c) = (p12, some dupEntityMsg) := by
  simp [pkcs12File.addCertificate, hc, he]

/-- Witness for C5: a second leaf certificate is rejected and the first one
is still in the slot. -/
theorem addCertificate_duplicate_end_entity_witness :
    ({ entitycert := some ⟨"e1", "i", false⟩ } : pkcs12File).entitycert =
      some ⟨"e1", "i", false⟩ ∧
    (⟨"e2", "i", false⟩ : Cert).isCA = false ∧
    ({ entitycert := some ⟨"e1", "i", false⟩ } : pkcs12File).addCertificate
        (some ⟨"e2", "i", false⟩) =
      ({ entitycert := some ⟨"e1", "i", false⟩ }, some dupEntityMsg) :=
  ⟨rfl, rfl,
   addCertificate_duplicate_end_entity { entitycert := some ⟨"e1", "i", false⟩ }
     ⟨"e2", "i", false⟩ ⟨"e1", "i", false⟩ rfl rfl⟩

/-- C6: with the private-key slot occupied and the end-entity slot empty,
`writeFile` fails with the missing-end-entity error; the error return
happens before any encode or `os.WriteFile` call, so no output file is
written. -/
theorem writeFile_missing_end_entity (p12 : pkcs12File) (storepass : String)
    (k : PrivateKey) (hk : p12.privkey = some k) (he : p12.entitycert = none) :
    p12.writeFile storepass = .error missingEntityMsg := by
  simp [pkcs12File.writeFile, hk, he]

/-- Witness for C6 at a concrete aggregate holding only a key. -/
theorem writeFile_missing_end_entity_witness :
    ({ privkey := some ⟨0⟩ } : pkcs12File).privkey = some ⟨0⟩ ∧
    ({ privkey := some ⟨0⟩ } : pkcs12File).entitycert = none ∧
    ({ privkey := some ⟨0⟩ } : pkcs12File).writeFile "pw" = .error missingEntityMsg :=
  ⟨rfl, rfl, writeFile_missing_end_entity { privkey := some ⟨0⟩ } "pw" ⟨0⟩ rfl rfl⟩

/-- Concrete stand-ins for the external `crypto/x509` parsers: every
PKCS#1/PKCS#8 private-key parse fails (modelling malformed key blocks),
and the byte string `[1]` decodes to one self-signed CA certificate. -/
def stubParsers : Parsers where
  parsePKCS8PrivateKey := fun _ => none
  parsePKCS1PrivateKey := fun _ => none
  parseCertificates := fun b => if b = [1] then some [⟨"ca", "ca", true⟩] else none

/-- C7 (code bug): the spec says every parse failure aborts the run, in
particular a malformed "RSA PRIVATE KEY" PEM block.  In the source the
trailing `check(err)` of that case checks the enclosing `os.ReadFile`
error (necessarily nil there), not the `x509.ParsePKCS1PrivateKey` error,
which is scoped to the `if` statement; so a file whose RSA PRIVATE KEY
block fails to parse is processed to completion: the block is skipped, the
following CERTIFICATE block is still classified, and the file-processing
result is success rather than an error. -/
theorem malformed_rsa_block_not_fatal :
    processFile stubParsers {} "bad.pem" [.rsaPrivateKey [0], .certificate [1]] =
      .ok { cacerts := [⟨"ca", "ca", true⟩] } := by rfl

/-- C8 (code bug): the spec says that with the recursive flag off,
traversal yields only files directly inside a given directory.  The walk
callback in the source logs the skip but returns nil instead of
`filepath.SkipDir`, so `filepath.Walk` descends anyway: with
`recurse = false`, a `.crt` file one level down inside `sub/` is still
appended to the candidate list. -/
theorem walk_nonrecursive_collects_subdirectory_file :
    walkDir false "/certs"
        (.dir "certs" (.cons (.dir "sub" (.cons (.file "x.crt") .nil)) .nil)) =
      ["/certs/sub/x.crt"] := by decide

/-- C9: whenever `writeFile` reaches an encode call, the certificate-chain
argument it passes is the root sequence followed by the intermediate
sequence, each in insertion order (`append(p12.cacerts,
p12.intermediatecerts...)`). -/
theorem writeFile_chain_order (p12 : pkcs12File) (storepass : String)
    (call : EncodeCall) (h : p12.writeFile storepass = .ok call) :
    call.chain = p12.cacerts ++ p12.intermediatecerts := by
  unfold pkcs12File.writeFile at h
  cases hp : p12.privkey with
  | none =>
    rw [hp] at h
    injection h with h
    rw [← h]
    rfl
  | some k =>
    cases hent : p12.entitycert with
    | none => rw [hp, hent] at h; exact absurd h (by simp)
    | some ec =>
      rw [hp, hent] at h
      injection h with h
      rw [← h]
      rfl

/-- Witness for C9 at a two-certificate trust store. -/
theorem writeFile_chain_order_witness :
    ({ cacerts := [⟨"r", "r", true⟩], intermediatecerts := [⟨"i", "r", true⟩] }
        : pkcs12File).writeFile "pw" =
      .ok (.trustStore [⟨"r", "r", true⟩, ⟨"i", "r", true⟩] "pw") ∧
    EncodeCall.chain (.trustStore [⟨"r", "r", true⟩, ⟨"i", "r", true⟩] "pw") =
      [⟨"r", "r", true⟩] ++ [⟨"i", "r", true⟩] :=
  ⟨rfl,
   writeFile_chain_order
     { cacerts := [⟨"r", "r", true⟩], intermediatecerts := [⟨"i", "r", true⟩] }
     "pw" (.trustStore [⟨"r", "r", true⟩, ⟨"i", "r", true⟩] "pw") rfl⟩

/-- C10: with the private-key slot empty and the end-entity slot occupied,
`writeFile` hands the encode primitive only the root-plus-intermediate
chain; the captured end-entity certificate is not part of the trust-store
payload (it appears in the chain only if it also sits in `cacerts` or
`intermediatecerts`, which classification never does for a non-authority
certificate). -/
theorem writeFile_trustStore_omits_entitycert (p12 : pkcs12File)
    (storepass : String) (e : Cert) (hk : p12.privkey = none)
    (he : p12.entitycert = some e) :
    p12.writeFile storepass =
      .ok (.trustStore (p12.cacerts ++ p12.intermediatecerts) storepass) ∧
    (e ∉ p12.cacerts → e ∉ p12.intermediatecerts →
      e ∉ p12.cacerts ++ p12.intermediatecerts) := by
  refine ⟨writeFile_of_privkey_none p12 storepass hk, ?_⟩
  intro h1 h2
  simp [List.mem_append, h1, h2]

/-- Witness for C10: an aggregate holding one root CA and a captured leaf
certificate, no key; the encode call carries only the root. -/
theorem writeFile_trustStore_omits_entitycert_witness :
    ({ cacerts := [⟨"r", "r", true⟩], entitycert := some ⟨"leaf", "r", false⟩ }
        : pkcs12File).privkey = none ∧
    ({ cacerts := [⟨"r", "r", true⟩], entitycert := some ⟨"leaf", "r", false⟩ }
        : pkcs12File).writeFile "pw" =
      .ok (.trustStore ([⟨"r", "r", true⟩] ++ []) "pw") ∧
    (⟨"leaf", "r", false⟩ : Cert) ∉ [(⟨"r", "r", true⟩ : Cert)] ++ ([] : List Cert) :=
  ⟨rfl,
   (writeFile_trustStore_omits_entitycert
     { cacerts := [⟨"r", "r", true⟩], entitycert := some ⟨"leaf", "r", false⟩ }
     "pw" ⟨"leaf", "r", false⟩ rfl rfl).1,
   (writeFile_trustStore_omits_entitycert
     { cacerts := [⟨"r", "r", true⟩], entitycert := some ⟨"leaf", "r", false⟩ }
     "pw" ⟨"leaf", "r", false⟩ rfl rfl).2 (by decide) (by decide)⟩

end Ksbuilder
